import Mathlib

/-!
Shallow embedding of `src/checkers/jsonchecker.py` from
flatpak-external-data-checker: the jq-based JSON checker.

Bytes (the fetched JSON document, jq stdin/stdout) are modelled as `String`;
`bytes.decode()` is the identity under this model.  External collaborators
(the jq subprocess, `aiohttp` fetching, `datetime.fromisoformat`, the base
class `_update_version`, `ExternalGitRef.fetch_remote`, `set_new_version`)
are modelled as explicit function parameters gathered in `Env`, and the
calls the checker makes to them are recorded in an `Effect` trace.
-/

/-- Structured timestamps (`datetime.datetime`) are opaque to this module:
they are produced by `datetime.fromisoformat`, an external library function,
and only carried along.  We model them by their carrier only. -/
abbrev Datetime := String

/-- Low-level exceptions raised by external collaborators:
`subprocess.CalledProcessError` (nonzero exit of the jq process, carrying the
return code), `ValueError` (from `datetime.fromisoformat`), and the
`NETWORK_ERRORS` transport-error class (from the HTTP session). -/
inductive LowErr where
  | calledProcessError (returncode : Int)
  | valueError (msg : String)
  | networkError (msg : String)
  deriving DecidableEq, Repr

/-- Python-level exceptions observable from this module:
`CheckerQueryError` (with optional message and optional wrapped cause, the
`raise ... from err` chain), bare `KeyError` from a dict lookup, and
`AssertionError` from a failed `assert`. -/
inductive PyErr where
  | checkerQueryError (msg : Option String) (cause : Option LowErr)
  | keyError (key : String)
  | assertionError
  deriving DecidableEq, Repr

/-- String-keyed dictionaries with insertion order, modelling Python `dict`
(the JSON checker only ever stores string values). -/
abbrev Dict := List (String × String)

/-- `d.get(k)`: first binding of `k`, if any. -/
def dictGet (d : Dict) (k : String) : Option String :=
  (d.find? (fun kv => kv.1 == k)).map (fun kv => kv.2)

/-- `d[k]`: like `dictGet` but raising `KeyError` when the key is missing. -/
def dictGetItem (d : Dict) (k : String) : Except PyErr String :=
  match dictGet d k with
  | some v => .ok v
  | none => .error (.keyError k)

/-- `d[k] = v`: Python dict assignment keeps the position of an existing key
and appends a fresh key at the end. -/
def dictSet (d : Dict) (k v : String) : Dict :=
  if d.any (fun kv => kv.1 == k) then
    d.map (fun kv => if kv.1 == k then (k, v) else kv)
  else
    d ++ [(k, v)]

/-- `k in d`. -/
def dictHasKey (d : Dict) (k : String) : Bool :=
  d.any (fun kv => kv.1 == k)

/-! ## Query Evaluator (`query_json`, lines 15-30) -/

/-- The fixed jq post-filter `typecheck_q` from `query_json`, verbatim. -/
def typecheck_q : String :=
  ".|type as $rt | if $rt==\"string\" or $rt==\"number\" then . else error($rt) end"

/-- The `--arg name value` pairs built from the `variables` mapping
(`var_args` in the source). -/
def var_args : Option Dict → List String
  | none => []
  | some vs => vs.flatMap (fun kv => ["--arg", kv.1, kv.2])

/-- The composed jq program text: the f-string
`( {query} ) | ( {typecheck_q} )`. -/
def effective_query (query : String) : String :=
  "( " ++ query ++ " ) | ( " ++ typecheck_q ++ " )"

/-- The full jq command line `jq_cmd` from the source:
`["jq"] + var_args + ["-r", "-e", effective_query]`. -/
def jq_cmd (query : String) (varsOpt : Option Dict) : List String :=
  ["jq"] ++ var_args varsOpt ++ ["-r", "-e", effective_query query]

/-- Python `str.strip()`: drop leading and trailing whitespace. -/
def pyStrip (s : String) : String :=
  ⟨((s.data.dropWhile Char.isWhitespace).reverse.dropWhile
      Char.isWhitespace).reverse⟩

/-- The type of the external process runner `utils.Command(...).run(data)`:
given the command line and the stdin bytes it returns the stdout bytes, or
raises `subprocess.CalledProcessError` with the nonzero return code. -/
abbrev ProcRun := List String → String → Except Int String

/-- `query_json(query, data, variables)` (lines 15-30): run the composed jq
command over the document; wrap any `CalledProcessError` as
`CheckerQueryError("Error running jq") from err`; on success return the
stdout decoded and stripped. -/
def query_json (run : ProcRun) (query : String) (data : String)
    (varsOpt : Option Dict) : Except PyErr String :=
  match run (jq_cmd query varsOpt) data with
  | .error rc =>
      .error (.checkerQueryError (some "Error running jq")
        (some (.calledProcessError rc)))
  | .ok jq_stdout => .ok (pyStrip jq_stdout)

/-! ### Semantics of the composed jq program

The jq binary itself is an external collaborator; the spec pins down only the
behaviour of the fixed post-filter. -/

/-- JSON runtime values, as jq classifies them; numbers are kept as their
literal rendering (jq-internal arithmetic is out of scope). -/
inductive JsonValue where
  | null
  | bool (b : Bool)
  | num (lit : String)
  | str (s : String)
  | arr (n : Nat)
  | obj (n : Nat)
  deriving DecidableEq, Repr

/-- jq `type`: the runtime type name of a value. -/
def jqTypeName : JsonValue → String
  | .null => "null"
  | .bool _ => "boolean"
  | .num _ => "number"
  | .str _ => "string"
  | .arr _ => "array"
  | .obj _ => "object"

/-- Modelled from the spec: the semantics of the fixed post-filter
`typecheck_q` followed by `-r` raw output — a string or number value is
printed raw, any other runtime type hits `error($rt)`. -/
def typecheckOutput : JsonValue → Except String String
  | .str s => .ok s
  | .num lit => .ok lit
  | v => .error (jqTypeName v)

/-- Modelled from the spec: the jq process evaluating the composed program
`( query ) | ( typecheck_q )` under `-r -e`, given a black-box evaluation
`userEval` of the user query to its JSON result (or a jq evaluation error).
A program error — including `error($rt)` raised by the post-filter — makes
jq exit nonzero (exit status 5), which `utils.Command.run` surfaces as
`CalledProcessError`; success prints the raw scalar and a newline. -/
def jqProcess (userEval : String → Dict → String → Except String JsonValue)
    (query : String) (vars : Dict) (input : String) : Except Int String :=
  match userEval query vars input with
  | .error _ => .error 5
  | .ok v =>
      match typecheckOutput v with
      | .error _ => .error 5
      | .ok out => .ok (out ++ "\n")

/-! ## Sequential Query Resolver (`query_sequence`, lines 33-39) -/

/-- Observable calls this checker makes to its external collaborators. -/
inductive Effect where
  | fetch (url : String)
  | jq (query : String) (bindings : Dict)
  | updateVersion (version : String) (url : String) (followRedirects : Bool)
  | fetchRemote (url : String) (commit : Option String) (tag : String)
      (branch : Option String) (version : Option String)
      (timestamp : Option Datetime)
  | setNewVersion (url : String) (commit : Option String) (tag : String)
      (branch : Option String) (version : Option String)
      (timestamp : Option Datetime)
  deriving DecidableEq, Repr

/-- `not query` in Python: the query slot is falsy when it is `None` or the
empty string. -/
def isFalsy : Option String → Bool
  | none => true
  | some s => s == ""

/-- The loop body of `query_sequence`, with the accumulated `results` dict
made explicit; alongside the result we record the jq invocations made
(query text and the variable bindings passed). -/
def query_sequenceAux (run : ProcRun) (json_data : String) :
    List (String × Option String) → Dict →
    Except PyErr Dict × List Effect
  | [], results => (.ok results, [])
  | (result_key, query) :: rest, results =>
    if isFalsy query then
      query_sequenceAux run json_data rest results
    else
      let q := query.getD ""
      match query_json run q json_data (some results) with
      | .error e => (.error e, [.jq q results])
      | .ok v =>
          let next := query_sequenceAux run json_data rest (dictSet results result_key v)
          (next.1, .jq q results :: next.2)

/-- `query_sequence(json_data, queries)` (lines 33-39): fold the plan in
order, threading the accumulated results in as jq variables, starting from
the empty dict. -/
def query_sequence (run : ProcRun) (json_data : String)
    (queries : List (String × Option String)) : Except PyErr Dict × List Effect :=
  query_sequenceAux run json_data queries []

/-! ## Timestamp Normalizer (`parse_timestamp`, lines 42-48) -/

/-- `re.sub(r"Z$", "+00:00", s)`: Python `$` matches at the end of the string
or just before a trailing newline, so a single trailing `Z` (possibly before
a final newline) is replaced. -/
def subZ (s : String) : String :=
  let cs := s.data
  if cs.getLast? = some 'Z' then
    ⟨cs.dropLast ++ ['+', '0', '0', ':', '0', '0']⟩
  else if cs.getLast? = some '\n' ∧ cs.dropLast.getLast? = some 'Z' then
    ⟨cs.dropLast.dropLast ++ ['+', '0', '0', ':', '0', '0', '\n']⟩
  else
    s

/-- The type of `datetime.fromisoformat`: an external library parser that
returns a structured timestamp or raises `ValueError`. -/
abbrev FromIso := String → Except String Datetime

/-- `parse_timestamp(date_string)` (lines 42-48): `None` passes through;
otherwise rewrite a trailing `Z` and parse, wrapping `ValueError` as
`CheckerQueryError("Failed to parse timestamp") from err`. -/
def parse_timestamp (fromisoformat : FromIso) :
    Option String → Except PyErr (Option Datetime)
  | none => .ok none
  | some date_string =>
      match fromisoformat (subZ date_string) with
      | .ok d => .ok (some d)
      | .error msg =>
          .error (.checkerQueryError (some "Failed to parse timestamp")
            (some (.valueError msg)))

/-! ## Checker Orchestrator (`JSONChecker`, lines 51-127) -/

/-- Modelled from the spec: `ExternalGitRef` (from `..lib.externaldata`) is
the git version record with positional fields
`(url, commit, tag, branch, version, timestamp)`. -/
structure ExternalGitRef where
  url : String
  commit : Option String
  tag : String
  branch : Option String
  version : Option String
  timestamp : Option Datetime
  deriving DecidableEq, Repr

/-- The slice of an external-data record the checker reads: whether it is an
`ExternalGitRepo` (the `isinstance` branch), its `checker_data` dict, the
current git reference URL (`current_version.url`, read only on the git path),
and the base-class eligibility test `self.should_check(external_data)`. -/
structure ExternalDataRec where
  isGitRepo : Bool
  checkerData : Dict
  currentVersionUrl : String
  shouldCheck : Bool

/-- The external collaborators the checker calls: the HTTP session
(`session.get(url)` + `response.read()`, raising a transport error), the jq
process runner, `datetime.fromisoformat`, and
`ExternalGitRef.fetch_remote` (whose own failures are the remote-resolution
collaborator's contract, out of scope here, so it is total). -/
structure Env where
  fetchResult : String → Except String String
  run : ProcRun
  fromisoformat : FromIso
  fetchRemoteFn : ExternalGitRef → ExternalGitRef

/-- The effect recording a `fetch_remote` call on a record. -/
def fetchRemoteEff (r : ExternalGitRef) : Effect :=
  .fetchRemote r.url r.commit r.tag r.branch r.version r.timestamp

/-- The effect recording a `set_new_version` call with a record. -/
def setNewVersionEff (r : ExternalGitRef) : Effect :=
  .setNewVersion r.url r.commit r.tag r.branch r.version r.timestamp

/-- The plain-artifact query plan (lines 90-95), for the two mandatory
queries already looked up. -/
def dataPlan (cd : Dict) (vq uq : String) : List (String × Option String) :=
  [("tag", dictGet cd "tag-query"),
   ("commit", dictGet cd "commit-query"),
   ("version", some vq),
   ("url", some uq)]

/-- `JSONChecker._check_data` (lines 86-102).  Python evaluates the plan
list before calling `query_sequence`, so the unconditional
`checker_data["version-query"]` and `checker_data["url-query"]` lookups can
raise `KeyError` first (in that order); after resolution,
`results["version"]` and `results["url"]` are unconditional lookups too, and
the pair is handed to `_update_version` with `follow_redirects=False`. -/
def _check_data (env : Env) (json_data : String) (ed : ExternalDataRec) :
    Except PyErr Unit × List Effect :=
  let cd := ed.checkerData
  match dictGetItem cd "version-query" with
  | .error e => (.error e, [])
  | .ok vq =>
    match dictGetItem cd "url-query" with
    | .error e => (.error e, [])
    | .ok uq =>
      match query_sequence env.run json_data (dataPlan cd vq uq) with
      | (.error e, fx) => (.error e, fx)
      | (.ok results, fx) =>
        match dictGetItem results "version" with
        | .error e => (.error e, fx)
        | .ok latest_version =>
          match dictGetItem results "url" with
          | .error e => (.error e, fx)
          | .ok latest_url =>
              (.ok (), fx ++ [.updateVersion latest_version latest_url false])

/-- The git query plan (lines 106-114), for the mandatory tag query already
looked up. -/
def gitPlan (cd : Dict) (tq : String) : List (String × Option String) :=
  [("tag", some tq),
   ("commit", dictGet cd "commit-query"),
   ("version", dictGet cd "version-query"),
   ("timestamp", dictGet cd "timestamp-query")]

/-- The `ExternalGitRef` constructed at lines 115-122: the current
reference's URL carried over, `results.get("commit")`, the mandatory tag,
`branch=None`, `results.get("version")`, and the parsed timestamp. -/
def mkGitRef (ed : ExternalDataRec) (results : Dict) (tag : String)
    (ts : Option Datetime) : ExternalGitRef :=
  { url := ed.currentVersionUrl
    commit := dictGet results "commit"
    tag := tag
    branch := none
    version := dictGet results "version"
    timestamp := ts }

/-- `JSONChecker._check_git` (lines 104-127).  The `ExternalGitRef(...)`
arguments are evaluated in order, so the unconditional `results["tag"]`
lookup happens before `parse_timestamp(results.get("timestamp"))`; when the
record has no commit it is replaced by `await new_version.fetch_remote()`
before `set_new_version`. -/
def _check_git (env : Env) (json_data : String) (ed : ExternalDataRec) :
    Except PyErr Unit × List Effect :=
  let cd := ed.checkerData
  match dictGetItem cd "tag-query" with
  | .error e => (.error e, [])
  | .ok tq =>
    match query_sequence env.run json_data (gitPlan cd tq) with
    | (.error e, fx) => (.error e, fx)
    | (.ok results, fx) =>
      match dictGetItem results "tag" with
      | .error e => (.error e, fx)
      | .ok tag =>
        match parse_timestamp env.fromisoformat (dictGet results "timestamp") with
        | .error e => (.error e, fx)
        | .ok ts =>
          let new_version := mkGitRef ed results tag ts
          if new_version.commit = none then
            let resolved := env.fetchRemoteFn new_version
            (.ok (), fx ++ [fetchRemoteEff new_version, setNewVersionEff resolved])
          else
            (.ok (), fx ++ [setNewVersionEff new_version])

/-- The body of `JSONChecker.check` after the assertion (lines 74-84): look
up the URL, fetch the document (translating any transport error to a bare
`CheckerQueryError from err`), then branch on the data class. -/
def check_body (env : Env) (ed : ExternalDataRec) :
    Except PyErr Unit × List Effect :=
  match dictGetItem ed.checkerData "url" with
  | .error e => (.error e, [])
  | .ok json_url =>
    match env.fetchResult json_url with
    | .error msg =>
        (.error (.checkerQueryError none (some (.networkError msg))),
         [.fetch json_url])
    | .ok json_data =>
        let branch :=
          if ed.isGitRepo then _check_git env json_data ed
          else _check_data env json_data ed
        (branch.1, .fetch json_url :: branch.2)

/-- `JSONChecker.check` (lines 71-84): `assert self.should_check(...)`
first — a failed assertion is an `AssertionError`, raised before anything
else happens — then the body. -/
def check (env : Env) (ed : ExternalDataRec) :
    Except PyErr Unit × List Effect :=
  if ed.shouldCheck then check_body env ed else (.error .assertionError, [])

/-- `CHECKER_DATA_SCHEMA` (lines 53-68) as a predicate on the checker-data
dict: all declared properties are strings (trivially true in this model),
`url` is required, and the `anyOf` clause requires either both
`version-query` and `url-query` or `tag-query`. -/
def schemaValid (cd : Dict) : Bool :=
  dictHasKey cd "url" &&
    (dictHasKey cd "version-query" && dictHasKey cd "url-query" ||
     dictHasKey cd "tag-query")

/-! ## Helper lemmas about the resolver loop -/

theorem query_sequenceAux_append (run : ProcRun) (jd : String)
    (pre rest : List (String × Option String)) (r0 : Dict) :
    query_sequenceAux run jd (pre ++ rest) r0 =
      match query_sequenceAux run jd pre r0 with
      | (.error e, fx) => (.error e, fx)
      | (.ok acc, fx) =>
          ((query_sequenceAux run jd rest acc).1,
            fx ++ (query_sequenceAux run jd rest acc).2) := by
  induction pre generalizing r0 with
  | nil => simp [query_sequenceAux]
  | cons hd tl ih =>
    obtain ⟨k, q⟩ := hd
    by_cases hq : isFalsy q
    · simp [query_sequenceAux, hq, ih]
    · simp only [List.cons_append, query_sequenceAux, hq, if_neg, Bool.not_eq_true]
      cases hrun : query_json run (q.getD "") jd (some r0) with
      | error e => simp [hq, hrun]
      | ok v =>
        simp only [hq, hrun, Bool.false_eq_true, if_false, List.append_eq]
        rw [ih]
        cases h2 : query_sequenceAux run jd tl (dictSet r0 k v) with
        | mk r fx => cases r <;> simp

theorem dictSet_keys (d : Dict) (k v x : String)
    (hx : x ∈ (dictSet d k v).map Prod.fst) :
    x ∈ d.map Prod.fst ∨ x = k := by
  unfold dictSet at hx
  by_cases h : d.any (fun kv => kv.1 == k)
  · rw [if_pos h] at hx
    obtain ⟨y, hy, hyx⟩ := List.mem_map.mp hx
    obtain ⟨kv, hkv, hfkv⟩ := List.mem_map.mp hy
    by_cases hk : kv.1 == k
    · right
      rw [if_pos hk] at hfkv
      rw [← hyx, ← hfkv]
    · left
      rw [if_neg hk] at hfkv
      rw [← hyx, ← hfkv]
      exact List.mem_map_of_mem Prod.fst hkv
  · rw [if_neg h, List.map_append] at hx
    rcases List.mem_append.mp hx with h1 | h2
    · exact Or.inl h1
    · right; simpa using h2

theorem query_sequenceAux_keys (run : ProcRun) (jd : String)
    (qs : List (String × Option String)) :
    ∀ r0 res fx, query_sequenceAux run jd qs r0 = (.ok res, fx) →
      ∀ x, x ∈ res.map Prod.fst →
        x ∈ r0.map Prod.fst ∨ ∃ q, (x, q) ∈ qs ∧ isFalsy q = false := by
  induction qs with
  | nil =>
    intro r0 res fx h x hx
    simp only [query_sequenceAux, Prod.mk.injEq, Except.ok.injEq] at h
    exact Or.inl (h.1 ▸ hx)
  | cons hd tl ih =>
    obtain ⟨k, q⟩ := hd
    intro r0 res fx h x hx
    by_cases hq : isFalsy q
    · simp only [query_sequenceAux, hq, if_pos] at h
      rcases ih r0 res fx h x hx with h1 | ⟨q2, hq2, hf⟩
      · exact Or.inl h1
      · exact Or.inr ⟨q2, List.mem_cons_of_mem _ hq2, hf⟩
    · simp only [query_sequenceAux, hq, Bool.false_eq_true, if_false] at h
      cases hrun : query_json run (q.getD "") jd (some r0) with
      | error e => rw [hrun] at h; simp at h
      | ok v =>
        rw [hrun] at h
        simp only [Prod.mk.injEq] at h
        have h1 : query_sequenceAux run jd tl (dictSet r0 k v) =
            ((query_sequenceAux run jd tl (dictSet r0 k v)).1,
             (query_sequenceAux run jd tl (dictSet r0 k v)).2) := rfl
        rcases ih (dictSet r0 k v) res (query_sequenceAux run jd tl (dictSet r0 k v)).2
            (by rw [h1, h.1]) x hx with h2 | ⟨q2, hq2, hf⟩
        · rcases dictSet_keys r0 k v x h2 with h3 | h3
          · exact Or.inl h3
          · exact Or.inr ⟨q, h3 ▸ List.mem_cons_self _ _, Bool.not_eq_true _ ▸ by simpa using hq⟩
        · exact Or.inr ⟨q2, List.mem_cons_of_mem _ hq2, hf⟩

theorem query_sequenceAux_filter (run : ProcRun) (jd : String)
    (qs : List (String × Option String)) :
    ∀ r0, query_sequenceAux run jd (qs.filter fun e => !isFalsy e.2) r0 =
      query_sequenceAux run jd qs r0 := by
  induction qs with
  | nil => intro r0; rfl
  | cons hd tl ih =>
    obtain ⟨k, q⟩ := hd
    intro r0
    by_cases hq : isFalsy q
    · simp only [List.filter_cons, hq, Bool.not_true, Bool.false_eq_true, if_false]
      rw [ih]
      simp [query_sequenceAux, hq]
    · simp only [List.filter_cons, hq, Bool.not_false, Bool.false_eq_true, if_true]
      simp only [query_sequenceAux, hq, Bool.false_eq_true, if_false]
      cases hrun : query_json run (q.getD "") jd (some r0) <;> simp [ih]

theorem query_sequenceAux_effects_jq (run : ProcRun) (jd : String)
    (qs : List (String × Option String)) :
    ∀ r0 e, e ∈ (query_sequenceAux run jd qs r0).2 → ∃ q b, e = .jq q b := by
  induction qs with
  | nil => intro r0 e he; simp [query_sequenceAux] at he
  | cons hd tl ih =>
    obtain ⟨k, q⟩ := hd
    intro r0 e he
    by_cases hq : isFalsy q
    · simp only [query_sequenceAux, hq, if_pos] at he
      exact ih r0 e he
    · simp only [query_sequenceAux, hq, Bool.false_eq_true, if_false] at he
      cases hrun : query_json run (q.getD "") jd (some r0) with
      | error err => rw [hrun] at he; simp at he; exact ⟨_, _, he⟩
      | ok v =>
        rw [hrun] at he
        simp only [List.mem_cons] at he
        rcases he with he | he
        · exact ⟨_, _, he⟩
        · exact ih (dictSet r0 k v) e he

/-! ## Claims -/

/-- Claim C6: the Timestamp Normalizer maps absent input to absent output
(not an error); a trailing literal `Z` is rewritten to `+00:00` before
parsing, so `"2023-05-01T00:00:00Z"` parses exactly as
`"2023-05-01T00:00:00+00:00"` does, whatever the external parser; and any
parse failure is reported as `CheckerQueryError`. -/
theorem parse_timestamp_spec :
    (∀ fi : FromIso, parse_timestamp fi none = .ok none) ∧
    (∀ fi : FromIso,
      parse_timestamp fi (some "2023-05-01T00:00:00Z") =
        parse_timestamp fi (some "2023-05-01T00:00:00+00:00")) ∧
    (∀ (fi : FromIso) (s msg : String), fi (subZ s) = .error msg →
      parse_timestamp fi (some s) =
        .error (.checkerQueryError (some "Failed to parse timestamp")
          (some (.valueError msg)))) := by
  refine ⟨fun fi => rfl, fun fi => ?_, fun fi s msg h => ?_⟩
  · have h1 : subZ "2023-05-01T00:00:00Z" = "2023-05-01T00:00:00+00:00" := by decide
    have h2 : subZ "2023-05-01T00:00:00+00:00" = "2023-05-01T00:00:00+00:00" := by decide
    simp only [parse_timestamp, h1, h2]
  · simp only [parse_timestamp, h]

/-- A concrete stand-in for `datetime.fromisoformat`: fails on
`"not-a-date"`, succeeds elsewhere. -/
def sampleIso : FromIso :=
  fun s => if s = "not-a-date" then .error "Invalid isoformat string" else .ok s

theorem parse_timestamp_spec_witness :
    parse_timestamp sampleIso none = .ok none ∧
    parse_timestamp sampleIso (some "2023-05-01T00:00:00Z") =
      parse_timestamp sampleIso (some "2023-05-01T00:00:00+00:00") ∧
    parse_timestamp sampleIso (some "not-a-date") =
      .error (.checkerQueryError (some "Failed to parse timestamp")
        (some (.valueError "Invalid isoformat string"))) :=
  ⟨parse_timestamp_spec.1 sampleIso, parse_timestamp_spec.2.1 sampleIso,
   parse_timestamp_spec.2.2 sampleIso "not-a-date" "Invalid isoformat string"
     rfl⟩

/-- Claim C4: the evaluator composes every user query with the mandatory
type post-filter (the last command-line argument is always the composed
program `( query ) | ( typecheck_q )`); every nonzero exit of the jq
process is surfaced as the single `CheckerQueryError` kind wrapping the
process failure; success yields the stdout decoded and stripped; and a
query whose underlying result is boolean, null, array, or object fails
evaluation under the composed program's semantics. -/
theorem query_json_spec :
    (∀ (query : String) (varsOpt : Option Dict),
      (jq_cmd query varsOpt).getLast? = some (effective_query query) ∧
      effective_query query =
        "( " ++ query ++ " ) | ( " ++ typecheck_q ++ " )") ∧
    (∀ (run : ProcRun) (query data : String) (varsOpt : Option Dict) (rc : Int),
      run (jq_cmd query varsOpt) data = .error rc →
      query_json run query data varsOpt =
        .error (.checkerQueryError (some "Error running jq")
          (some (.calledProcessError rc)))) ∧
    (∀ (run : ProcRun) (query data : String) (varsOpt : Option Dict) (out : String),
      run (jq_cmd query varsOpt) data = .ok out →
      query_json run query data varsOpt = .ok (pyStrip out)) ∧
    (∀ (userEval : String → Dict → String → Except String JsonValue)
        (query data : String) (vars : Dict) (v : JsonValue),
      userEval query vars data = .ok v →
      (jqTypeName v = "boolean" ∨ jqTypeName v = "null" ∨
        jqTypeName v = "array" ∨ jqTypeName v = "object") →
      query_json (fun _ input => jqProcess userEval query vars input)
          query data (some vars) =
        .error (.checkerQueryError (some "Error running jq")
          (some (.calledProcessError 5)))) := by
  refine ⟨fun query varsOpt => ⟨?_, rfl⟩, fun run query data varsOpt rc h => ?_,
    fun run query data varsOpt out h => ?_, fun userEval query data vars v hv hty => ?_⟩
  · cases varsOpt with
    | none => rfl
    | some vs =>
      show (("jq" :: var_args (some vs)) ++ ["-r", "-e", effective_query query]).getLast? = _
      rw [List.getLast?_append_of_ne_nil _ (by simp)]
      rfl
  · simp only [query_json, h]
  · simp only [query_json, h]
  · have hout : typecheckOutput v = .error (jqTypeName v) := by
      cases v <;> first | rfl | simp [jqTypeName] at hty
    simp only [query_json, jqProcess, hv, hout]

/-- A process runner failing with exit status 3. -/
def sampleRunErr : ProcRun := fun _ _ => .error 3

/-- A process runner producing a scalar with surrounding whitespace. -/
def sampleRunOk : ProcRun := fun _ _ => .ok " 1.2.3\n"

/-- A black-box user query evaluating to the JSON value `true`. -/
def sampleEvalBool : String → Dict → String → Except String JsonValue :=
  fun _ _ _ => .ok (.bool true)

theorem query_json_spec_witness :
    (jq_cmd ".v" none).getLast? = some (effective_query ".v") ∧
    query_json sampleRunErr ".v" "null" none =
      .error (.checkerQueryError (some "Error running jq")
        (some (.calledProcessError 3))) ∧
    query_json sampleRunOk ".v" "null" none = .ok (pyStrip " 1.2.3\n") ∧
    query_json (fun _ input => jqProcess sampleEvalBool ".v" [] input)
        ".v" "null" (some []) =
      .error (.checkerQueryError (some "Error running jq")
        (some (.calledProcessError 5))) :=
  ⟨(query_json_spec.1 ".v" none).1,
   query_json_spec.2.1 sampleRunErr ".v" "null" none 3 rfl,
   query_json_spec.2.2.1 sampleRunOk ".v" "null" none " 1.2.3\n" rfl,
   query_json_spec.2.2.2 sampleEvalBool ".v" "null" [] (.bool true) rfl
     (Or.inl rfl)⟩

/-- A process runner under which the query `.v` evaluates to `1.0` and the
query `$version` succeeds exactly when the `version` variable binding
`--arg version 1.0` is on the command line (jq aborts on an undefined
variable). -/
def orderDepRun : ProcRun := fun cmd _ =>
  if cmd = jq_cmd ".v" (some []) then .ok "1.0\n"
  else if cmd = jq_cmd "$version" (some [("version", "1.0")]) then .ok "1.0\n"
  else .error 3

/-- Claim C1: the Sequential Query Resolver threads results — an entry
appended to a plan is evaluated with the accumulated Result Mapping of all
earlier evaluated entries as the variable bindings (visible to jq via
`--arg`), its returned string stored under the entry's key; and evaluation
order determines visibility: under `orderDepRun`, the plan
`[version, url]` (where the url query reads `$version`) succeeds, while the
swapped plan fails because `version` is not yet bound. -/
theorem query_sequence_threading :
    (∀ (run : ProcRun) (jd : String) (pre : List (String × Option String))
        (k q : String) (acc : Dict) (fx : List Effect),
      q ≠ "" →
      query_sequence run jd pre = (.ok acc, fx) →
      query_sequence run jd (pre ++ [(k, some q)]) =
        (match query_json run q jd (some acc) with
          | .error e => (.error e, fx ++ [.jq q acc])
          | .ok v => (.ok (dictSet acc k v), fx ++ [.jq q acc]))) ∧
    ((query_sequence orderDepRun "null"
        [("version", some ".v"), ("url", some "$version")]).1 =
      .ok [("version", "1.0"), ("url", "1.0")] ∧
     (query_sequence orderDepRun "null"
        [("url", some "$version"), ("version", some ".v")]).1 =
      .error (.checkerQueryError (some "Error running jq")
        (some (.calledProcessError 3)))) := by
  constructor
  · intro run jd pre k q acc fx hq h
    have hfal : isFalsy (some q) = false := by simp [isFalsy, hq]
    unfold query_sequence at h ⊢
    rw [query_sequenceAux_append, h]
    simp only [query_sequenceAux, hfal, Bool.false_eq_true, if_false,
      Option.getD_some]
    cases hrun : query_json run q jd (some acc) <;>
      simp [query_sequenceAux]
  · exact ⟨rfl, rfl⟩

theorem query_sequence_threading_witness :
    query_sequence orderDepRun "null" [("version", some ".v")] =
      (.ok [("version", "1.0")], [.jq ".v" []]) ∧
    query_sequence orderDepRun "null"
        ([("version", some ".v")] ++ [("url", some "$version")]) =
      (match query_json orderDepRun "$version" "null"
          (some [("version", "1.0")]) with
        | .error e => (.error e, [.jq ".v" []] ++ [.jq "$version" [("version", "1.0")]])
        | .ok v => (.ok (dictSet [("version", "1.0")] "url" v),
            [.jq ".v" []] ++ [.jq "$version" [("version", "1.0")]])) :=
  ⟨rfl,
   query_sequence_threading.1 orderDepRun "null" [("version", some ".v")]
     "url" "$version" [("version", "1.0")] [.jq ".v" []]
     (by decide) rfl⟩

/-- Claim C2: the skip invariant — every key in a produced Result Mapping
comes from a plan entry whose query is neither absent nor empty (so a key
all of whose entries are absent/empty never appears, not even as a
null/empty value); and entries with absent/empty queries are skipped
entirely: for every process runner, dropping them from the plan changes
neither the result nor the sequence of jq invocations, so the Query
Evaluator is never invoked for them. -/
theorem query_sequence_skip :
    (∀ (run : ProcRun) (jd : String) (qs : List (String × Option String))
        (res : Dict) (fx : List Effect),
      query_sequence run jd qs = (.ok res, fx) →
      ∀ k, k ∈ res.map Prod.fst →
        ∃ q, (k, q) ∈ qs ∧ isFalsy q = false) ∧
    (∀ (run : ProcRun) (jd : String) (qs : List (String × Option String)),
      query_sequence run jd (qs.filter fun e => !isFalsy e.2) =
        query_sequence run jd qs) := by
  constructor
  · intro run jd qs res fx h k hk
    rcases query_sequenceAux_keys run jd qs [] res fx h k hk with h1 | h2
    · simp at h1
    · exact h2
  · intro run jd qs
    exact query_sequenceAux_filter run jd qs []

theorem query_sequence_skip_witness :
    query_sequence sampleRunOk "null" [("tag", none), ("version", some ".v")] =
      (.ok [("version", "1.2.3")], [.jq ".v" []]) ∧
    (∃ q, ("version", q) ∈ [("tag", none), ("version", some ".v")] ∧
      isFalsy q = false) ∧
    query_sequence sampleRunOk "null"
        ([("tag", none), ("version", some ".v")].filter fun e => !isFalsy e.2) =
      query_sequence sampleRunOk "null" [("tag", none), ("version", some ".v")] :=
  ⟨rfl,
   query_sequence_skip.1 sampleRunOk "null" [("tag", none), ("version", some ".v")]
     [("version", "1.2.3")] [.jq ".v" []] rfl "version" (by simp),
   query_sequence_skip.2 sampleRunOk "null" [("tag", none), ("version", some ".v")]⟩

/-- A process runner that succeeds when no variable binding is passed and
fails with exit status 4 as soon as any `--arg` binding is present. -/
def sampleRunSeq : ProcRun := fun cmd _ =>
  match cmd with
  | ["jq", "-r", "-e", _] => .ok "v1\n"
  | _ => .error 4

/-- Claim C3: abort on failure — if the Query Evaluator fails on a plan
entry, the Sequential Query Resolver returns that very failure (no Result
Mapping reaches the caller), and the recorded jq invocations stop at the
failing entry: whatever the remaining entries are, none of them is
evaluated. -/
theorem query_sequence_abort :
    ∀ (run : ProcRun) (jd : String) (pre post : List (String × Option String))
      (k q : String) (acc : Dict) (fx : List Effect) (e : PyErr),
      q ≠ "" →
      query_sequence run jd pre = (.ok acc, fx) →
      query_json run q jd (some acc) = .error e →
      query_sequence run jd (pre ++ (k, some q) :: post) =
        (.error e, fx ++ [.jq q acc]) := by
  intro run jd pre post k q acc fx e hq h hrun
  have hfal : isFalsy (some q) = false := by simp [isFalsy, hq]
  unfold query_sequence at h ⊢
  rw [query_sequenceAux_append, h]
  simp [query_sequenceAux, hfal, Option.getD_some, hrun]

theorem query_sequence_abort_witness :
    query_sequence sampleRunSeq "null" [("tag", some ".t")] =
      (.ok [("tag", "v1")], [.jq ".t" []]) ∧
    query_json sampleRunSeq ".c" "null" (some [("tag", "v1")]) =
      .error (.checkerQueryError (some "Error running jq")
        (some (.calledProcessError 4))) ∧
    query_sequence sampleRunSeq "null"
        ([("tag", some ".t")] ++ ("commit", some ".c") :: [("version", some ".v")]) =
      (.error (.checkerQueryError (some "Error running jq")
        (some (.calledProcessError 4))), [.jq ".t" []] ++ [.jq ".c" [("tag", "v1")]]) :=
  ⟨rfl, rfl,
   query_sequence_abort sampleRunSeq "null" [("tag", some ".t")]
     [("version", some ".v")] "commit" ".c" [("tag", "v1")] [.jq ".t" []]
     (.checkerQueryError (some "Error running jq") (some (.calledProcessError 4)))
     (by decide) rfl rfl⟩

/-! ## Orchestrator claims -/

/-- Claim C9: checking a record for which eligibility does not hold fails
via the assertion (`AssertionError`), which is not a constructor of the
`CheckerQueryError` kind and is not caught anywhere in the checker — it is
returned as-is with no effect performed; for eligible records the assertion
has no observable effect: `check` is exactly its body. -/
theorem check_assert_spec :
    ∀ (env : Env) (ed : ExternalDataRec),
      (ed.shouldCheck = false →
        check env ed = (.error .assertionError, []) ∧
        (∀ msg cause, (PyErr.assertionError = .checkerQueryError msg cause) → False)) ∧
      (ed.shouldCheck = true → check env ed = check_body env ed) := by
  intro env ed
  refine ⟨fun h => ⟨by simp [check, h], fun msg cause hc => by cases hc⟩,
    fun h => by simp [check, h]⟩

/-- An environment whose collaborators all succeed. -/
def sampleEnv : Env :=
  { fetchResult := fun _ => .ok "null"
    run := sampleRunOk
    fromisoformat := sampleIso
    fetchRemoteFn := id }

/-- A plain-variant record with a full plain configuration. -/
def edPlain : ExternalDataRec :=
  { isGitRepo := false
    checkerData := [("url", "https://x/j"), ("version-query", ".v"), ("url-query", ".u")]
    currentVersionUrl := ""
    shouldCheck := true }

/-- The same record, but ineligible. -/
def edPlainIneligible : ExternalDataRec :=
  { edPlain with shouldCheck := false }

theorem check_assert_spec_witness :
    (check sampleEnv edPlainIneligible = (.error .assertionError, []) ∧
     (∀ msg cause, (PyErr.assertionError = .checkerQueryError msg cause) → False)) ∧
    check sampleEnv edPlain = check_body sampleEnv edPlain :=
  ⟨(check_assert_spec sampleEnv edPlainIneligible).1 rfl,
   (check_assert_spec sampleEnv edPlain).2 rfl⟩

/-- Claim C7: any transport failure of the HTTP GET is re-raised as a bare
`CheckerQueryError` wrapping the network error, and it happens before any
query evaluation: the effect trace is just the fetch — the Query Evaluator
is never invoked and no Result Mapping is constructed. -/
theorem check_fetch_error_spec :
    ∀ (env : Env) (ed : ExternalDataRec) (url msg : String),
      ed.shouldCheck = true →
      dictGetItem ed.checkerData "url" = .ok url →
      env.fetchResult url = .error msg →
      check env ed =
        (.error (.checkerQueryError none (some (.networkError msg))),
          [.fetch url]) ∧
      (∀ q b, (Effect.jq q b) ∈ (check env ed).2 → False) := by
  intro env ed url msg hs hu hf
  have h : check env ed =
      (.error (.checkerQueryError none (some (.networkError msg))),
        [.fetch url]) := by
    simp [check, hs, check_body, hu, hf]
  refine ⟨h, fun q b hm => ?_⟩
  rw [h] at hm
  simp at hm

/-- An environment whose HTTP session always times out. -/
def fetchFailEnv : Env :=
  { sampleEnv with fetchResult := fun _ => .error "connection timed out" }

theorem check_fetch_error_spec_witness :
    check fetchFailEnv edPlain =
      (.error (.checkerQueryError none
        (some (.networkError "connection timed out"))), [.fetch "https://x/j"]) ∧
    (∀ q b, (Effect.jq q b) ∈ (check fetchFailEnv edPlain).2 → False) :=
  check_fetch_error_spec fetchFailEnv edPlain "https://x/j" "connection timed out"
    rfl rfl rfl

/-- Claim C8: in the plain-artifact flow, when the plan succeeds, the
orchestrator hands exactly the Result Mapping's `version` and `url` values
to `_update_version`, with the redirect-following flag set to `false`,
after the fetch and the jq calls. -/
theorem check_data_spec :
    ∀ (env : Env) (ed : ExternalDataRec) (url jd vq uq : String)
      (results : Dict) (fx : List Effect) (v u : String),
      ed.shouldCheck = true →
      ed.isGitRepo = false →
      dictGetItem ed.checkerData "url" = .ok url →
      env.fetchResult url = .ok jd →
      dictGetItem ed.checkerData "version-query" = .ok vq →
      dictGetItem ed.checkerData "url-query" = .ok uq →
      query_sequence env.run jd (dataPlan ed.checkerData vq uq) =
        (.ok results, fx) →
      dictGetItem results "version" = .ok v →
      dictGetItem results "url" = .ok u →
      check env ed =
        (.ok (), .fetch url :: (fx ++ [.updateVersion v u false])) := by
  intro env ed url jd vq uq results fx v u hs hg hu hf hvq huq hseq hv hu2
  simp [check, hs, check_body, hu, hf, hg, _check_data, hvq, huq, hseq, hv, hu2]

theorem check_data_spec_witness :
    query_sequence sampleEnv.run "null"
        (dataPlan edPlain.checkerData ".v" ".u") =
      (.ok [("version", "1.2.3"), ("url", "1.2.3")],
        [.jq ".v" [], .jq ".u" [("version", "1.2.3")]]) ∧
    check sampleEnv edPlain =
      (.ok (), .fetch "https://x/j" ::
        ([.jq ".v" [], .jq ".u" [("version", "1.2.3")]] ++
          [.updateVersion "1.2.3" "1.2.3" false])) :=
  ⟨rfl,
   check_data_spec sampleEnv edPlain "https://x/j" "null" ".v" ".u"
     [("version", "1.2.3"), ("url", "1.2.3")]
     [.jq ".v" [], .jq ".u" [("version", "1.2.3")]] "1.2.3" "1.2.3"
     rfl rfl rfl rfl rfl rfl rfl rfl rfl⟩

theorem dictGetItem_of_hasKey_false (d : Dict) (k : String)
    (h : dictHasKey d k = false) :
    dictGetItem d k = .error (.keyError k) := by
  have h2 : ∀ kv ∈ d, ¬(kv.1 == k) = true := by
    intro kv hkv hbeq
    have hany : d.any (fun kv => kv.1 == k) = true :=
      List.any_eq_true.mpr ⟨kv, hkv, hbeq⟩
    unfold dictHasKey at h
    rw [hany] at h
    cases h
  unfold dictGetItem dictGet
  rw [List.find?_eq_none.mpr h2]
  rfl

/-- Claim C10: the plain flow reads `version-query` and `url-query` with
unconditional dict lookups, so a plain-variant configuration lacking either
key — which the declared schema permits, a `url` + `tag-query` configuration
being schema-valid — fails with a bare `KeyError` (not a
`CheckerQueryError`), before any jq call and before any handoff to
`_update_version`: the effect trace is empty. -/
theorem check_data_keyerror_spec :
    (∀ (env : Env) (jd : String) (ed : ExternalDataRec),
      dictHasKey ed.checkerData "version-query" = false →
      _check_data env jd ed = (.error (.keyError "version-query"), [])) ∧
    (∀ (env : Env) (jd : String) (ed : ExternalDataRec) (vq : String),
      dictGetItem ed.checkerData "version-query" = .ok vq →
      dictHasKey ed.checkerData "url-query" = false →
      _check_data env jd ed = (.error (.keyError "url-query"), [])) ∧
    (∀ m c, ((PyErr.keyError "version-query" = .checkerQueryError m c) → False) ∧
            ((PyErr.keyError "url-query" = .checkerQueryError m c) → False)) ∧
    (schemaValid [("url", "https://example.com/x.json"), ("tag-query", ".t")] = true ∧
     dictHasKey [("url", "https://example.com/x.json"), ("tag-query", ".t")]
       "version-query" = false) := by
  refine ⟨fun env jd ed h => ?_, fun env jd ed vq hvq h => ?_,
    fun m c => ?_, ?_, ?_⟩
  · simp [_check_data, dictGetItem_of_hasKey_false _ _ h]
  · simp [_check_data, hvq, dictGetItem_of_hasKey_false _ _ h]
  · constructor
    · intro hc; cases hc
    · intro hc; cases hc
  · decide
  · decide

/-- A plain-variant record whose configuration has only `url` and
`tag-query` — schema-valid, yet lacking the keys the plain flow reads
unconditionally. -/
def edPlainTagOnly : ExternalDataRec :=
  { isGitRepo := false
    checkerData := [("url", "https://example.com/x.json"), ("tag-query", ".t")]
    currentVersionUrl := ""
    shouldCheck := true }

theorem check_data_keyerror_spec_witness :
    dictHasKey edPlainTagOnly.checkerData "version-query" = false ∧
    _check_data sampleEnv "null" edPlainTagOnly =
      (.error (.keyError "version-query"), []) :=
  ⟨rfl, check_data_keyerror_spec.1 sampleEnv "null" edPlainTagOnly rfl⟩

/-- Recognizer for remote-resolution effects. -/
def isFetchRemoteEffB : Effect → Bool
  | .fetchRemote _ _ _ _ _ _ => true
  | _ => false

theorem query_sequence_no_fetchRemote (run : ProcRun) (jd : String)
    (qs : List (String × Option String)) :
    (query_sequence run jd qs).2.countP isFetchRemoteEffB = 0 := by
  rw [List.countP_eq_zero]
  intro e he
  obtain ⟨q, b, rfl⟩ := query_sequenceAux_effects_jq run jd qs [] e he
  simp [isFetchRemoteEffB]

/-- Claim C5: in the git flow, when the query plan (and the tag lookup and
timestamp normalization) succeed, the constructed version record carries
forward the current reference's URL unchanged and has no branch; if
`commit` is absent from the Result Mapping, `fetch_remote` is invoked
exactly once, on that record, and `set_new_version` receives its result;
if `commit` is present, `set_new_version` receives the record as-is and no
remote-resolution call is made. -/
theorem check_git_spec :
    ∀ (env : Env) (jd : String) (ed : ExternalDataRec) (tq : String)
      (results : Dict) (fx : List Effect) (tag : String) (ts : Option Datetime),
      dictGetItem ed.checkerData "tag-query" = .ok tq →
      query_sequence env.run jd (gitPlan ed.checkerData tq) = (.ok results, fx) →
      dictGetItem results "tag" = .ok tag →
      parse_timestamp env.fromisoformat (dictGet results "timestamp") = .ok ts →
      (mkGitRef ed results tag ts).url = ed.currentVersionUrl ∧
      (mkGitRef ed results tag ts).branch = none ∧
      (dictGet results "commit" = none →
        _check_git env jd ed =
          (.ok (), fx ++ [fetchRemoteEff (mkGitRef ed results tag ts),
            setNewVersionEff (env.fetchRemoteFn (mkGitRef ed results tag ts))]) ∧
        (fx ++ [fetchRemoteEff (mkGitRef ed results tag ts),
            setNewVersionEff (env.fetchRemoteFn (mkGitRef ed results tag ts))]).countP
          isFetchRemoteEffB = 1) ∧
      (∀ c, dictGet results "commit" = some c →
        _check_git env jd ed =
          (.ok (), fx ++ [setNewVersionEff (mkGitRef ed results tag ts)]) ∧
        (fx ++ [setNewVersionEff (mkGitRef ed results tag ts)]).countP
          isFetchRemoteEffB = 0) := by
  intro env jd ed tq results fx tag ts htq hseq htag hts
  have hfx : (query_sequence env.run jd (gitPlan ed.checkerData tq)).2 = fx :=
    congrArg Prod.snd hseq
  have hfx0 : fx.countP isFetchRemoteEffB = 0 :=
    hfx ▸ query_sequence_no_fetchRemote env.run jd (gitPlan ed.checkerData tq)
  refine ⟨rfl, rfl, fun hc => ⟨?_, ?_⟩, fun c hc => ⟨?_, ?_⟩⟩
  · simp [_check_git, htq, hseq, htag, hts, mkGitRef, hc]
  · simp [List.countP_append, hfx0, List.countP_cons, isFetchRemoteEffB,
      fetchRemoteEff, setNewVersionEff]
  · simp [_check_git, htq, hseq, htag, hts, mkGitRef, hc]
  · simp [List.countP_append, hfx0, List.countP_cons, isFetchRemoteEffB,
      setNewVersionEff]

/-- An environment for the git flow: fetch and jq succeed, and the remote
resolution fills in a commit. -/
def sampleGitEnv : Env :=
  { fetchResult := fun _ => .ok "null"
    run := sampleRunOk
    fromisoformat := sampleIso
    fetchRemoteFn := fun r => { r with commit := some "abcdef" } }

/-- A git-variant record whose configuration has only the mandatory
`tag-query`. -/
def edGit : ExternalDataRec :=
  { isGitRepo := true
    checkerData := [("url", "https://x/j"), ("tag-query", ".t")]
    currentVersionUrl := "https://git.example/repo.git"
    shouldCheck := true }

/-- The version record the git flow constructs for `edGit` under
`sampleGitEnv`. -/
def gitRefW : ExternalGitRef :=
  mkGitRef edGit [("tag", "1.2.3")] "1.2.3" none

theorem check_git_spec_witness :
    dictGetItem edGit.checkerData "tag-query" = .ok ".t" ∧
    query_sequence sampleGitEnv.run "null" (gitPlan edGit.checkerData ".t") =
      (.ok [("tag", "1.2.3")], [.jq ".t" []]) ∧
    dictGet [("tag", "1.2.3")] "commit" = none ∧
    gitRefW.url = edGit.currentVersionUrl ∧
    gitRefW.branch = none ∧
    _check_git sampleGitEnv "null" edGit =
      (.ok (), [.jq ".t" []] ++ [fetchRemoteEff gitRefW,
        setNewVersionEff (sampleGitEnv.fetchRemoteFn gitRefW)]) ∧
    ([Effect.jq ".t" []] ++ [fetchRemoteEff gitRefW,
        setNewVersionEff (sampleGitEnv.fetchRemoteFn gitRefW)]).countP
      isFetchRemoteEffB = 1 :=
  have h := check_git_spec sampleGitEnv "null" edGit ".t" [("tag", "1.2.3")]
    [.jq ".t" []] "1.2.3" none rfl rfl rfl rfl
  ⟨rfl, rfl, rfl, h.1, h.2.1, (h.2.2.1 rfl).1, (h.2.2.1 rfl).2⟩
